import Mathlib

/-!
Shallow embedding of `scripts/phoenix_downloader.py` (class `PhoenixDownloader`).

The program is a sequential download orchestrator.  Its interactions with the
outside world (HTTP responses from the CivitAI API, exit status of the
`aria2c` transfer tool, the `sha256sum` digest of the staged file, and the
filesystem subtree under the models directory) are modelled as explicit
oracle values carried in an `ArtifactEnv`; the pure control flow of each
Python function is translated line by line into a Lean function over those
oracles.  Observable side effects (whether the transfer tool was invoked,
whether the checksum verifier was invoked, whether the staged file was
deleted) are returned as explicit flags.  `Path.rglob` interprets its
argument as a glob pattern, so the existence check embeds fnmatch-style
matching (`*`, `?`, `[...]`) of each entry name, not literal comparison.
-/

/-- Python's `str.lower()` as used on ASCII hex digests. -/
def pyLower (s : String) : String := ⟨s.data.map Char.toLower⟩

/-- Accumulator pass of Python's `s.split(',')` over the character list:
fields are the maximal runs between commas, and the empty string splits to
one empty field. -/
def splitCommaAux : List Char → List Char → List String
  | [], acc => [⟨acc.reverse⟩]
  | c :: cs, acc =>
    if c = ',' then ⟨acc.reverse⟩ :: splitCommaAux cs []
    else splitCommaAux cs (c :: acc)

/-- Python's `s.split(',')`. -/
def pySplitComma (s : String) : List String := splitCommaAux s.data []

/-- Python's `str.strip()` (whitespace as it occurs in these identifier
lists): drop leading and trailing whitespace characters. -/
def pyStrip (s : String) : String :=
  ⟨(((s.data.dropWhile Char.isWhitespace).reverse).dropWhile Char.isWhitespace).reverse⟩

/-- The identifier-list parsing used at both call sites
(`download_hf_repos` line 53 and `process_civitai_downloads` line 237):
`[x.strip() for x in s.split(',') if x.strip()]`. -/
def pySplitStrip (s : String) : List String :=
  ((pySplitComma s).map pyStrip).filter (· ≠ "")

/-- One entry of the JSON `files` list of a CivitAI model-versions response:
`name` (may be absent) and `hashes.SHA256` (may be absent). -/
structure FileInfo where
  name : Option String
  sha256 : Option String
deriving DecidableEq

/-- Outcome of `session.get` on the metadata endpoint: either a
transport-level exception (timeout, connection error — `requests.RequestException`
before a response exists) or a response with a status code and a parsed
`files` list (a missing or empty `files` key is the empty list). -/
inductive ApiResult where
  | transportError
  | response (status : Nat) (files : List FileInfo)
deriving DecidableEq

/-- The dict returned by `get_civitai_model_info` on success:
`filename` is `files[0].get('name')` (so possibly `None`),
`download_url` is the templated endpoint, `hash` is
`files[0].get('hashes', \x7b\x7d).get('SHA256', '').lower()`. -/
structure ModelInfo where
  filename : Option String
  download_url : String
  hash : String
deriving DecidableEq

/-- Embeds `get_civitai_model_info` (lines 105-135).  `response.raise_for_status()`
raises for status ≥ 400 and the exception is caught, returning `None`; a
2xx/3xx status other than 200 falls through the `status_code == 200` check to
the trailing `return None`; an absent or empty `files` list also returns
`None`.  The authorization header only influences the oracle response and is
absorbed into it. -/
def get_civitai_model_info (model_id : String) (api : ApiResult) : Option ModelInfo :=
  match api with
  | .transportError => none
  | .response status files =>
    if 400 ≤ status then none
    else if status = 200 then
      match files with
      | [] => none
      | file_info :: _ =>
        some { filename := file_info.name
               download_url :=
                 s!"https://civitai.com/api/download/models/{model_id}?type=Model&format=SafeTensor"
               hash := pyLower (file_info.sha256.getD "") }
    else none

/-- One alternative inside a `[...]` character class of a glob pattern:
either a single character or an inclusive codepoint range `lo-hi` (a range
with `lo > hi` matches nothing, as CPython's `fnmatch.translate` deletes
invalid ranges). -/
inductive ClsItem where
  | single (c : Char)
  | range (lo hi : Char)
deriving DecidableEq

/-- One token of a glob pattern as interpreted by `fnmatch.translate`:
a literal character, `?` (any one character), `*` (any sequence), or a
character class. -/
inductive GlobTok where
  | lit (c : Char)
  | any
  | star
  | cls (neg : Bool) (items : List ClsItem)
deriving DecidableEq

/-- Scans for the closing `]` of a character class, returning the enclosed
content and the remainder, or `none` when the class is unterminated. -/
def scanClassEnd : List Char → Option (List Char × List Char)
  | [] => none
  | ']' :: rest => some ([], rest)
  | c :: rest =>
    match scanClassEnd rest with
    | none => none
    | some (content, rest') => some (c :: content, rest')

/-- Parses a character class body after `[`, following `fnmatch.translate`'s
scan: an optional leading `!` negates, a `]` directly after it is literal
content, and the class extends to the next `]`; `none` when unterminated. -/
def scanClass (l : List Char) : Option (Bool × List Char × List Char) :=
  match l with
  | '!' :: ']' :: rest =>
    match scanClassEnd rest with
    | none => none
    | some (content, rest') => some (true, ']' :: content, rest')
  | '!' :: rest =>
    match scanClassEnd rest with
    | none => none
    | some (content, rest') => some (true, content, rest')
  | ']' :: rest =>
    match scanClassEnd rest with
    | none => none
    | some (content, rest') => some (false, ']' :: content, rest')
  | rest =>
    match scanClassEnd rest with
    | none => none
    | some (content, rest') => some (false, content, rest')

/-- Turns class content into alternatives: `c1-c2` (with `-` neither first
nor last) is a range, everything else is a literal, as in the regex class
emitted by `fnmatch.translate`. -/
def parseItems : List Char → List ClsItem
  | [] => []
  | c1 :: '-' :: c2 :: rest => .range c1 c2 :: parseItems rest
  | c :: rest => .single c :: parseItems rest

/-- Fuel-driven tokenizer for glob patterns (each step consumes at least one
character, so fuel = input length suffices and the fuel-0 branch is
unreachable from `globTokens`).  An unterminated `[` is a literal `[` and
scanning resumes right after it, as in `fnmatch.translate`. -/
def globTokensAux : Nat → List Char → List GlobTok
  | 0, _ => []
  | _ + 1, [] => []
  | fuel + 1, c :: rest =>
    if c = '*' then .star :: globTokensAux fuel rest
    else if c = '?' then .any :: globTokensAux fuel rest
    else if c = '[' then
      match scanClass rest with
      | none => .lit '[' :: globTokensAux fuel rest
      | some (neg, content, rest') => .cls neg (parseItems content) :: globTokensAux fuel rest'
    else .lit c :: globTokensAux fuel rest

/-- Tokenizes a glob pattern. -/
def globTokens (l : List Char) : List GlobTok := globTokensAux l.length l

/-- Whether a character is matched by one class alternative. -/
def clsItemMatch (c : Char) : ClsItem → Bool
  | .single x => c = x
  | .range lo hi => lo ≤ c && c ≤ hi

/-- Whether a non-`star` token matches one character. -/
def matchTok (t : GlobTok) (c : Char) : Bool :=
  match t with
  | .lit x => c = x
  | .any => true
  | .star => true
  | .cls neg items =>
    if neg then !(items.any (clsItemMatch c)) else items.any (clsItemMatch c)

/-- Fuel-driven glob matcher with the usual `star` backtracking (every step
shrinks tokens + characters, so fuel = both lengths + 1 suffices and the
fuel-0 branch is unreachable from `fnmatchName`). -/
def fnmatchAux : Nat → List GlobTok → List Char → Bool
  | 0, _, _ => false
  | _ + 1, [], [] => true
  | _ + 1, [], _ :: _ => false
  | fuel + 1, .star :: ts, [] => fnmatchAux fuel ts []
  | fuel + 1, .star :: ts, c :: cs =>
    fnmatchAux fuel ts (c :: cs) || fnmatchAux fuel (.star :: ts) cs
  | _ + 1, _ :: _, [] => false
  | fuel + 1, t :: ts, c :: cs => matchTok t c && fnmatchAux fuel ts cs

/-- Models the name matching `Path.rglob(pattern)` applies to each directory
entry: the pattern is compiled by `fnmatch.translate` into an anchored,
case-sensitive regex over the entry's final name component (`*`, `?` and
`[...]` are wildcards, everything else literal).  Patterns containing a path
separator or empty are outside this model (the source never passes them: the
filename is checked truthy first, and a name with `/` cannot be a single
directory entry). -/
def fnmatchName (pattern name : String) : Bool :=
  fnmatchAux ((globTokens pattern.data).length + name.data.length + 1)
    (globTokens pattern.data) name.data

/-- Whether a string is free of the characters `rglob` treats specially
(`*`, `?`, `[`) and of the path separator, i.e. it behaves as a literal
single-component filename under glob matching. -/
def literalFilename (s : String) : Bool :=
  s.data.all fun c => !(c = '*' || c = '?' || c = '[' || c = '/')

/-- A filesystem node: a regular file or a directory with children.  Models
the subtree that `Path.rglob` walks. -/
inductive FSNode where
  | file (name : String)
  | dir (name : String) (children : List FSNode)

mutual

/-- Whether `rglob(filename)` over this node's own entry or subtree yields a
path whose final component glob-matches `filename` and which `is_file()`.  A
directory whose name matches contributes nothing (fails `is_file`) but is
descended into. -/
def subtreeMatch (filename : String) : FSNode → Bool
  | .file n => fnmatchName filename n
  | .dir _ children => subtreeMatchList filename children

/-- Extends `subtreeMatch` over a list of sibling nodes. -/
def subtreeMatchList (filename : String) : List FSNode → Bool
  | [] => false
  | c :: cs => subtreeMatch filename c || subtreeMatchList filename cs

end

/-- Embeds `_file_exists_in_models` (lines 208-216).  The models root is `none` when
the directory is missing or unreadable (iterating `rglob` raises, the bare
`except` suppresses it); a root that is a regular file likewise raises and
yields `false`.  Otherwise the subtree under the root (root itself excluded,
as with `rglob`) is searched for a regular file whose name glob-matches
`filename` — `rglob` treats the filename as a pattern, not a literal
name. -/
def file_exists_in_models (models_dir : Option FSNode) (filename : String) : Bool :=
  match models_dir with
  | none => false
  | some (.file _) => false
  | some (.dir _ children) => subtreeMatchList filename children

/-- Embeds `_verify_checksum` (lines 218-226).  The oracle is the first token of
`sha256sum`'s stdout: `none` when the subprocess fails (missing file, I/O
error — `check=True` raises, caught by the bare `except`, returning `False`)
or its output is empty; otherwise the comparison
`actual.lower() == expected.lower()`. -/
def verify_checksum (digest : Option String) (expected_hash : String) : Bool :=
  match digest with
  | none => false
  | some actual_hash => pyLower actual_hash = pyLower expected_hash

/-- The per-artifact slice of the outside world consumed by
`download_civitai_model`: the metadata response, the models subtree, whether
`aria2c` exits zero, and the `sha256sum` digest of the staged file. -/
structure ArtifactEnv where
  api : ApiResult
  modelsRoot : Option FSNode
  transferOk : Bool
  digest : Option String

/-- The observable outcome of `download_civitai_model`: its boolean return
value, whether the transfer tool was invoked, whether the checksum verifier
was invoked, and whether the staged file was deleted
(`unlink(missing_ok=True)`, so the delete itself never fails). -/
structure DownloadResult where
  ok : Bool
  transferInvoked : Bool
  verifierInvoked : Bool
  deletedFile : Bool
deriving DecidableEq

/-- Embeds `download_civitai_model` (lines 137-206), with the token's effect on the
download URL elided (it never influences the modelled observables).  An empty
`model_id` returns `True` at once; a `None` resolution or a falsy filename
(`None` or `""`) returns `False`; a pre-existing file short-circuits to
`True`; a non-zero `aria2c` exit returns `False`; a non-empty resolved hash
triggers verification, deleting the staged file and returning `False` on
mismatch; otherwise the download is accepted. -/
def download_civitai_model (model_id : String) (env : ArtifactEnv) : DownloadResult :=
  if model_id = "" then
    { ok := true, transferInvoked := false, verifierInvoked := false, deletedFile := false }
  else
    match get_civitai_model_info model_id env.api with
    | none =>
      { ok := false, transferInvoked := false, verifierInvoked := false, deletedFile := false }
    | some model_info =>
      match model_info.filename with
      | none =>
        { ok := false, transferInvoked := false, verifierInvoked := false, deletedFile := false }
      | some filename =>
        if filename = "" then
          { ok := false, transferInvoked := false, verifierInvoked := false, deletedFile := false }
        else if file_exists_in_models env.modelsRoot filename then
          { ok := true, transferInvoked := false, verifierInvoked := false, deletedFile := false }
        else if !env.transferOk then
          { ok := false, transferInvoked := true, verifierInvoked := false, deletedFile := false }
        else if model_info.hash ≠ "" then
          if verify_checksum env.digest model_info.hash then
            { ok := true, transferInvoked := true, verifierInvoked := true, deletedFile := false }
          else
            { ok := false, transferInvoked := true, verifierInvoked := true, deletedFile := true }
        else
          { ok := true, transferInvoked := true, verifierInvoked := false, deletedFile := false }

/-- The running success/failure tally of the `for model_id in ids` loop in
`process_civitai_downloads` (lines 241-247): each identifier increments
exactly one counter and iteration always continues. -/
def runTally (env : String → ArtifactEnv) : List String → Nat × Nat → Nat × Nat
  | [], acc => acc
  | i :: is, (s, f) =>
    if (download_civitai_model i (env i)).ok then runTally env is (s + 1, f)
    else runTally env is (s, f + 1)

/-- Result of `process_civitai_downloads`: the final tally and the function's
boolean return value (always `True` in the source). -/
structure BatchResult where
  successful : Nat
  failed : Nat
  retval : Bool
deriving DecidableEq

/-- Embeds `process_civitai_downloads` (lines 228-249).  An empty list returns
`True` immediately; otherwise the parsed identifiers are processed in order
and tallied, and the function returns `True` regardless of the tally. -/
def process_civitai_downloads (download_list : String) (env : String → ArtifactEnv) :
    BatchResult :=
  if download_list = "" then { successful := 0, failed := 0, retval := true }
  else
    let t := runTally env (pySplitStrip download_list) (0, 0)
    { successful := t.1, failed := t.2, retval := true }

/-- The `for repo_id in repos` loop of `download_hf_repos` (lines 55-101):
each repository is attempted via the `huggingface-cli` subprocess (its exit
modelled by the oracle `toolOk`); a `CalledProcessError` is logged and the
loop continues with the next repository. -/
def hfLoop (toolOk : String → Bool) : List String → List (String × Bool)
  | [] => []
  | r :: rs => (r, toolOk r) :: hfLoop toolOk rs

/-- Embeds `download_hf_repos` (lines 45-103): returns the list of
(repository, tool-exit-ok) attempts and the function's return value, which is
`True` both for the empty-list early return and after the loop. -/
def download_hf_repos (repos_list : String) (toolOk : String → Bool) :
    List (String × Bool) × Bool :=
  if repos_list = "" then ([], true)
  else (hfLoop toolOk (pySplitStrip repos_list), true)

/-- A regular file named exactly `filename` occurs at this node or anywhere
below it (the straight reading of the spec's "matches filename exactly"). -/
inductive HasFileNamed (filename : String) : FSNode → Prop where
  | here : HasFileNamed filename (.file filename)
  | child {n : String} {children : List FSNode} {c : FSNode} :
      c ∈ children → HasFileNamed filename c → HasFileNamed filename (.dir n children)

/-- A regular file whose name glob-matches `pattern` occurs at this node or
anywhere below it (what `rglob` actually searches for). -/
inductive HasMatchingFile (pattern : String) : FSNode → Prop where
  | here {n : String} : fnmatchName pattern n = true → HasMatchingFile pattern (.file n)
  | child {n : String} {children : List FSNode} {c : FSNode} :
      c ∈ children → HasMatchingFile pattern c → HasMatchingFile pattern (.dir n children)

/-- A successful metadata response whose single file carries a name and an
upper-case SHA-256 digest. -/
def apiResolved : ApiResult :=
  .response 200 [{ name := some "a.safetensors", sha256 := some "ABC123DEF" }]

/-- Environment for a transfer whose staged file hashes to a wrong digest. -/
def envMismatch : ArtifactEnv :=
  { api := apiResolved, modelsRoot := some (.dir "models" []), transferOk := true,
    digest := some "0badd00d" }

/-- Environment for a transfer whose staged file hashes to the expected
digest up to case. -/
def envMatch : ArtifactEnv :=
  { api := apiResolved, modelsRoot := some (.dir "models" []), transferOk := true,
    digest := some "AbC123dEf" }

/-- Environment in which the resolved filename already sits in a nested
subdirectory of the models tree. -/
def envPresent : ArtifactEnv :=
  { api := apiResolved,
    modelsRoot := some (.dir "models" [.dir "checkpoints" [.file "a.safetensors"]]),
    transferOk := false, digest := none }

/-- Environment whose metadata request fails at the transport level. -/
def envTransportFail : ArtifactEnv :=
  { api := .transportError, modelsRoot := none, transferOk := true, digest := none }

/-- Environment whose metadata response carries no SHA-256 digest. -/
def envNoHash : ArtifactEnv :=
  { api := .response 200 [{ name := some "b.safetensors", sha256 := none }],
    modelsRoot := some (.dir "models" []), transferOk := true, digest := none }

/-- Environment whose resolved filename "x[1].safetensors" contains a glob
character class and is literally present under the models root. -/
def envGlobTrap : ArtifactEnv :=
  { api := .response 200 [{ name := some "x[1].safetensors", sha256 := none }],
    modelsRoot := some (.dir "models" [.file "x[1].safetensors"]),
    transferOk := true, digest := none }

/-- Environment whose metadata response's first file entry has no name. -/
def envNoName : ArtifactEnv :=
  { api := .response 200 [{ name := none, sha256 := none }],
    modelsRoot := some (.dir "models" []), transferOk := true, digest := none }

/-- Per-identifier environment of the end-to-end scenario: identifier "111"
resolves to "a.safetensors" with a matching digest, every other identifier
fails at the transport level. -/
def envScenario : String → ArtifactEnv := fun id =>
  if id = "111" then
    { api := apiResolved, modelsRoot := some (.dir "models" []), transferOk := true,
      digest := some "abc123def" }
  else
    { api := .transportError, modelsRoot := some (.dir "models" []), transferOk := true,
      digest := none }

mutual

/-- The recursive search of `rglob` finds a match exactly when a regular file
whose name glob-matches `filename` occurs in the node or its subtree. -/
theorem subtreeMatch_iff (filename : String) :
    (t : FSNode) → (subtreeMatch filename t = true ↔ HasMatchingFile filename t)
  | .file n => by
    constructor
    · intro h
      exact .here (by simpa [subtreeMatch] using h)
    · intro h
      cases h with
      | here hm => simpa [subtreeMatch] using hm
  | .dir n children => by
    constructor
    · intro h
      obtain ⟨c, hc, hcf⟩ :=
        (subtreeMatchList_iff filename children).mp (by simpa [subtreeMatch] using h)
      exact .child hc hcf
    · intro h
      cases h with
      | child hc hcf =>
        simpa [subtreeMatch] using (subtreeMatchList_iff filename _).mpr ⟨_, hc, hcf⟩

/-- List form of `subtreeMatch_iff`. -/
theorem subtreeMatchList_iff (filename : String) :
    (l : List FSNode) → (subtreeMatchList filename l = true ↔ ∃ c ∈ l, HasMatchingFile filename c)
  | [] => by simp [subtreeMatchList]
  | c :: cs => by
    rw [subtreeMatchList, Bool.or_eq_true, subtreeMatch_iff filename c,
      subtreeMatchList_iff filename cs]
    constructor
    · rintro (h | ⟨d, hd, hdf⟩)
      · exact ⟨c, List.mem_cons_self c cs, h⟩
      · exact ⟨d, List.mem_cons_of_mem c hd, hdf⟩
    · rintro ⟨d, hd, hdf⟩
      rcases List.mem_cons.mp hd with rfl | hd
      · exact Or.inl hdf
      · exact Or.inr ⟨d, hd, hdf⟩

end

/-- Matching a purely literal token list succeeds on the identical character
list. -/
theorem fnmatchAux_lits (l : List Char) :
    ∀ fuel : Nat, l.length < fuel → fnmatchAux fuel (l.map GlobTok.lit) l = true := by
  induction l with
  | nil =>
    intro fuel h
    cases fuel with
    | zero => omega
    | succ fuel => rfl
  | cons c cs ih =>
    intro fuel h
    cases fuel with
    | zero => omega
    | succ fuel =>
      show (matchTok (.lit c) c && fnmatchAux fuel (cs.map GlobTok.lit) cs) = true
      rw [ih fuel (Nat.lt_of_succ_lt_succ h)]
      simp [matchTok]

/-- A character list free of glob metacharacters tokenizes to its literal
tokens. -/
theorem globTokensAux_of_literal (l : List Char) :
    ∀ fuel : Nat, l.length ≤ fuel →
      (∀ c ∈ l, ¬(c = '*' ∨ c = '?' ∨ c = '[')) →
      globTokensAux fuel l = l.map GlobTok.lit := by
  induction l with
  | nil =>
    intro fuel _ _
    cases fuel with
    | zero => rfl
    | succ fuel => rfl
  | cons c cs ih =>
    intro fuel h hfree
    cases fuel with
    | zero => simp at h
    | succ fuel =>
      have hc := hfree c (List.mem_cons_self c cs)
      simp only [globTokensAux]
      rw [if_neg (fun hx => hc (Or.inl hx)), if_neg (fun hx => hc (Or.inr (Or.inl hx))),
        if_neg (fun hx => hc (Or.inr (Or.inr hx)))]
      rw [ih fuel (Nat.le_of_succ_le_succ h) (fun x hx => hfree x (List.mem_cons_of_mem c hx))]
      rfl

/-- A literal filename glob-matches itself. -/
theorem fnmatch_self (f : String) (h : literalFilename f = true) :
    fnmatchName f f = true := by
  have hall := List.all_eq_true.mp h
  have hfree : ∀ c ∈ f.data, ¬(c = '*' ∨ c = '?' ∨ c = '[') := by
    intro c hc
    have hx := hall c hc
    simp at hx
    tauto
  unfold fnmatchName globTokens
  rw [globTokensAux_of_literal f.data f.data.length (Nat.le_refl _) hfree]
  exact fnmatchAux_lits f.data _ (by simp only [List.length_map]; omega)

/-- An exactly-named regular file is found by the glob search when the
filename glob-matches itself. -/
theorem hasFileNamed_matching (f : String) (hself : fnmatchName f f = true) :
    ∀ t : FSNode, HasFileNamed f t → HasMatchingFile f t := by
  intro t h
  induction h with
  | here => exact .here hself
  | child hc _ ih => exact .child hc ih

/-- The loop tally adds to the accumulator the number of succeeding and the
number of failing identifiers. -/
theorem runTally_spec (env : String → ArtifactEnv) (ids : List String) :
    ∀ s f : Nat,
      runTally env ids (s, f) =
        (s + (ids.filter fun i => (download_civitai_model i (env i)).ok).length,
         f + (ids.filter fun i => !(download_civitai_model i (env i)).ok).length) := by
  induction ids with
  | nil => intro s f; simp [runTally]
  | cons i is ih =>
    intro s f
    by_cases h : (download_civitai_model i (env i)).ok = true
    · rw [runTally, if_pos h, ih]
      simp [List.filter_cons, h]
      omega
    · rw [runTally, if_neg h, ih]
      simp [List.filter_cons, h]
      omega

/-- Splitting a list by a boolean predicate preserves its length. -/
theorem filter_length_split (p : String → Bool) (l : List String) :
    (l.filter p).length + (l.filter fun x => !(p x)).length = l.length := by
  induction l with
  | nil => rfl
  | cons x xs ih => by_cases h : p x <;> simp [List.filter_cons, h] <;> omega

/-- Every repository in the list is attempted by the loop, in order. -/
theorem hfLoop_map_fst (toolOk : String → Bool) (rs : List String) :
    (hfLoop toolOk rs).map Prod.fst = rs := by
  induction rs with
  | nil => rfl
  | cons r rs ih => simp [hfLoop, ih]

/-- Claim C1: for a resolved artifact with a non-empty expected hash, after a
completed transfer, a computed digest that differs from the expected hash
case-insensitively makes `download_civitai_model` delete the staged file and
report the artifact failed, while a case-insensitively equal digest makes it
report success without deleting anything. -/
theorem checksum_gate_decides_outcome
    (id d f : String) (env : ArtifactEnv) (info : ModelInfo)
    (hid : id ≠ "")
    (hres : get_civitai_model_info id env.api = some info)
    (hf : info.filename = some f) (hfne : f ≠ "")
    (hh : info.hash ≠ "")
    (habsent : file_exists_in_models env.modelsRoot f = false)
    (htransfer : env.transferOk = true)
    (hd : env.digest = some d) :
    (pyLower d ≠ pyLower info.hash →
      download_civitai_model id env =
        { ok := false, transferInvoked := true, verifierInvoked := true, deletedFile := true }) ∧
    (pyLower d = pyLower info.hash →
      download_civitai_model id env =
        { ok := true, transferInvoked := true, verifierInvoked := true,
          deletedFile := false }) := by
  constructor <;> intro hcmp <;>
    simp [download_civitai_model, hid, hres, hf, hfne, hh, habsent, htransfer, hd,
      verify_checksum, hcmp]

/-- Concrete witness for C1: identifier "111" with expected hash
"abc123def"; digest "0badd00d" is rejected with deletion, digest
"AbC123dEf" is accepted. -/
theorem checksum_gate_decides_outcome_witness :
    download_civitai_model "111" envMismatch =
      { ok := false, transferInvoked := true, verifierInvoked := true, deletedFile := true } ∧
    download_civitai_model "111" envMatch =
      { ok := true, transferInvoked := true, verifierInvoked := true, deletedFile := false } :=
  ⟨(checksum_gate_decides_outcome "111" "0badd00d" "a.safetensors" envMismatch _
      (by decide) rfl rfl (by decide) (by decide) rfl rfl rfl).1 (by decide),
   (checksum_gate_decides_outcome "111" "AbC123dEf" "a.safetensors" envMatch _
      (by decide) rfl rfl (by decide) (by decide) rfl rfl rfl).2 (by decide)⟩

/-- Counterexample to claim C2 as stated: the resolved filename
"x[1].safetensors" is literally present as a regular file directly under the
models root, yet the existence check treats `[1]` as a glob character class
(matching only "x1.safetensors"), misses the file, and the transfer tool IS
invoked. -/
theorem glob_existence_check_misses_literal_bracket_name :
    envGlobTrap.modelsRoot = some (.dir "models" [.file "x[1].safetensors"]) ∧
    HasFileNamed "x[1].safetensors" (.file "x[1].safetensors") ∧
    (download_civitai_model "111" envGlobTrap).transferInvoked = true :=
  ⟨rfl, .here, by decide⟩

/-- Claim C2 (amended): when the resolved filename is free of glob
metacharacters and path separators and a regular file with exactly that name
exists anywhere under the models search root, `download_civitai_model`
reports success without invoking the transfer tool or the checksum verifier.
(The existence check hands the filename to `Path.rglob`, which reads it as a
glob pattern, so a filename containing a metacharacter can miss its own
literal file.) -/
theorem preexisting_file_short_circuits
    (id f n : String) (children : List FSNode) (env : ArtifactEnv) (info : ModelInfo)
    (hid : id ≠ "")
    (hres : get_civitai_model_info id env.api = some info)
    (hf : info.filename = some f) (hfne : f ≠ "")
    (hmeta : literalFilename f = true)
    (hroot : env.modelsRoot = some (.dir n children))
    (hpresent : ∃ c ∈ children, HasFileNamed f c) :
    download_civitai_model id env =
      { ok := true, transferInvoked := false, verifierInvoked := false,
        deletedFile := false } := by
  have hmatch : ∃ c ∈ children, HasMatchingFile f c := by
    obtain ⟨c, hc, hcf⟩ := hpresent
    exact ⟨c, hc, hasFileNamed_matching f (fnmatch_self f hmeta) c hcf⟩
  have hexists : file_exists_in_models env.modelsRoot f = true := by
    rw [hroot]
    exact (subtreeMatchList_iff f children).mpr hmatch
  simp [download_civitai_model, hid, hres, hf, hfne, hexists]

/-- Concrete witness for C2: the metacharacter-free "a.safetensors" sits in a
nested subdirectory of the models tree, so the artifact is reported
successful with no transfer. -/
theorem preexisting_file_short_circuits_witness :
    download_civitai_model "111" envPresent =
      { ok := true, transferInvoked := false, verifierInvoked := false,
        deletedFile := false } :=
  preexisting_file_short_circuits "111" "a.safetensors" "models"
    [.dir "checkpoints" [.file "a.safetensors"]] envPresent _
    (by decide) rfl rfl (by decide) (by decide) rfl
    ⟨.dir "checkpoints" [.file "a.safetensors"], List.Mem.head _,
      .child (List.Mem.head _) .here⟩

/-- Claim C3: a transport-level failure, a non-2xx status, or a response with
an empty files list makes `get_civitai_model_info` return `none` (without
raising), after which `download_civitai_model` reports the artifact failed
with no transfer, no verification and no deletion. -/
theorem resolution_failure_reports_failed
    (id : String) (env : ArtifactEnv)
    (hid : id ≠ "")
    (hfail : env.api = .transportError ∨
      (∃ status files, env.api = .response status files ∧ (status < 200 ∨ 300 ≤ status)) ∨
      (∃ status, env.api = .response status [])) :
    get_civitai_model_info id env.api = none ∧
    download_civitai_model id env =
      { ok := false, transferInvoked := false, verifierInvoked := false,
        deletedFile := false } := by
  have hnone : get_civitai_model_info id env.api = none := by
    rcases hfail with h | ⟨s, files, h, hs⟩ | ⟨s, h⟩
    · rw [h]; rfl
    · rw [h]
      simp only [get_civitai_model_info]
      have h200 : ¬s = 200 := by omega
      by_cases h4 : 400 ≤ s
      · rw [if_pos h4]
      · rw [if_neg h4, if_neg h200]
    · rw [h]
      simp only [get_civitai_model_info]
      by_cases h4 : 400 ≤ s
      · rw [if_pos h4]
      · rw [if_neg h4]
        by_cases h2 : s = 200
        · rw [if_pos h2]
        · rw [if_neg h2]
  exact ⟨hnone, by simp [download_civitai_model, hid, hnone]⟩

/-- Concrete witness for C3: identifier "222" with a transport-level failure
is reported failed and the transfer tool is never invoked. -/
theorem resolution_failure_reports_failed_witness :
    get_civitai_model_info "222" envTransportFail.api = none ∧
    download_civitai_model "222" envTransportFail =
      { ok := false, transferInvoked := false, verifierInvoked := false,
        deletedFile := false } :=
  resolution_failure_reports_failed "222" envTransportFail (by decide) (Or.inl rfl)

/-- Claim C4: a resolved artifact with an empty expected hash that completes
its transfer is reported successful without the verifier being invoked and
without any deletion. -/
theorem missing_hash_skips_verification
    (id f : String) (env : ArtifactEnv) (info : ModelInfo)
    (hid : id ≠ "")
    (hres : get_civitai_model_info id env.api = some info)
    (hf : info.filename = some f) (hfne : f ≠ "")
    (hh : info.hash = "")
    (habsent : file_exists_in_models env.modelsRoot f = false)
    (htransfer : env.transferOk = true) :
    download_civitai_model id env =
      { ok := true, transferInvoked := true, verifierInvoked := false,
        deletedFile := false } := by
  simp [download_civitai_model, hid, hres, hf, hfne, hh, habsent, htransfer]

/-- Concrete witness for C4: a response without a SHA-256 digest leads to an
accepted transfer with the verifier never invoked. -/
theorem missing_hash_skips_verification_witness :
    download_civitai_model "333" envNoHash =
      { ok := true, transferInvoked := true, verifierInvoked := false,
        deletedFile := false } :=
  missing_hash_skips_verification "333" "b.safetensors" envNoHash _
    (by decide) rfl rfl (by decide) (by decide) rfl rfl

/-- Counterexample to claim C5 as stated: on a 200 response whose first file
entry has no name field, `get_civitai_model_info` returns a non-null record
whose filename is missing, not null. -/
theorem resolver_can_return_missing_filename :
    get_civitai_model_info "1" (.response 200 [{ name := none, sha256 := none }]) =
      some { filename := none
             download_url := "https://civitai.com/api/download/models/1?type=Model&format=SafeTensor"
             hash := "" } := by decide

/-- Claim C5 (amended): the resolver returns null or a record whose filename
is copied verbatim from the first file entry and may therefore be missing or
empty; such a record is rejected by the caller, which treats it exactly like
a null resolution: the artifact is reported failed with no transfer, no
verification and no deletion. -/
theorem falsy_filename_treated_as_resolution_failure
    (id : String) (env : ArtifactEnv) (info : ModelInfo)
    (hid : id ≠ "")
    (hres : get_civitai_model_info id env.api = some info)
    (hbad : info.filename = none ∨ info.filename = some "") :
    download_civitai_model id env =
      { ok := false, transferInvoked := false, verifierInvoked := false,
        deletedFile := false } := by
  rcases hbad with h | h <;> simp [download_civitai_model, hid, hres, h]

/-- Concrete witness for C5 (amended): a first file entry without a name
yields a resolved record that the caller reports as failed. -/
theorem falsy_filename_treated_as_resolution_failure_witness :
    download_civitai_model "444" envNoName =
      { ok := false, transferInvoked := false, verifierInvoked := false,
        deletedFile := false } :=
  falsy_filename_treated_as_resolution_failure "444" envNoName _
    (by decide) rfl (Or.inl rfl)

/-- Claim C6: the batch tally is the pair (number of succeeding identifiers,
number of failing identifiers) over the ordered list; in the end-to-end
scenario "111,222" where "111" resolves with a passing checksum and "222"
fails resolution, the transfer tool and the verifier run for "111" only and
the final tally is (1, 1). -/
theorem batch_tally_and_scenario (ids : List String) (env : String → ArtifactEnv) :
    runTally env ids (0, 0) =
      ((ids.filter fun i => (download_civitai_model i (env i)).ok).length,
       (ids.filter fun i => !(download_civitai_model i (env i)).ok).length) ∧
    (process_civitai_downloads "111,222" envScenario).successful = 1 ∧
    (process_civitai_downloads "111,222" envScenario).failed = 1 ∧
    (download_civitai_model "111" (envScenario "111")).transferInvoked = true ∧
    (download_civitai_model "111" (envScenario "111")).verifierInvoked = true ∧
    (download_civitai_model "111" (envScenario "111")).ok = true ∧
    (download_civitai_model "222" (envScenario "222")).transferInvoked = false ∧
    (download_civitai_model "222" (envScenario "222")).verifierInvoked = false := by
  refine ⟨?_, ?_, ?_, ?_, ?_, ?_, ?_, ?_⟩
  · simpa using runTally_spec env ids 0 0
  all_goals decide

/-- Claim C7: the batch operations always report overall success: the civitai
batch runner returns `True` for every input and environment, the repository
batch runner returns `True` for every input and tool behaviour, and the list
of attempted repositories is the full parsed identifier list regardless of
which individual attempts fail. -/
theorem batch_never_fails_overall (l : String) (env : String → ArtifactEnv)
    (toolOk : String → Bool) :
    (process_civitai_downloads l env).retval = true ∧
    (download_hf_repos l toolOk).2 = true ∧
    ((download_hf_repos l toolOk).1.map Prod.fst =
      if l = "" then [] else pySplitStrip l) := by
  refine ⟨?_, ?_, ?_⟩
  · unfold process_civitai_downloads
    by_cases h : l = "" <;> simp [h]
  · unfold download_hf_repos
    by_cases h : l = "" <;> simp [h]
  · unfold download_hf_repos
    by_cases h : l = "" <;> simp [h, hfLoop_map_fst]

/-- Claim C8: identifier-list parsing discards blank entries and strips the
rest: "a, ,b" parses to exactly ["a", "b"], and in general every parsed
identifier is non-empty and is the stripped form of one of the raw
comma-separated fields. -/
theorem identifier_list_parsing (s : String) :
    pySplitStrip "a, ,b" = ["a", "b"] ∧
    ∀ x ∈ pySplitStrip s, x ≠ "" ∧ ∃ y ∈ pySplitComma s, x = pyStrip y := by
  refine ⟨by decide, fun x hx => ?_⟩
  unfold pySplitStrip at hx
  rw [List.mem_filter] at hx
  obtain ⟨hmem, hne⟩ := hx
  rw [List.mem_map] at hmem
  obtain ⟨y, hy, rfl⟩ := hmem
  exact ⟨by simpa using hne, y, hy, rfl⟩

/-- Concrete witness for C8: "a" is produced from the raw list "a, ,b" and is
the stripped form of one of its fields. -/
theorem identifier_list_parsing_witness :
    "a" ≠ "" ∧ ∃ y ∈ pySplitComma "a, ,b", "a" = pyStrip y :=
  (identifier_list_parsing "a, ,b").2 "a" (by decide)

/-- Counterexample to claim C9 as stated: both directions of the exact-match
reading fail.  With the literal file "x[1].safetensors" present, the check
returns false (the class `[1]` matches only the character 1); with
"x1.safetensors" present, the pattern "x[1].safetensors" returns true though
no file of exactly that name exists; and the pattern "*" returns true over a
tree holding only "a.safetensors". -/
theorem rglob_matching_is_not_exact :
    file_exists_in_models (some (.dir "models" [.file "x[1].safetensors"]))
      "x[1].safetensors" = false ∧
    file_exists_in_models (some (.dir "models" [.file "x1.safetensors"]))
      "x[1].safetensors" = true ∧
    file_exists_in_models (some (.dir "models" [.file "a.safetensors"])) "*" = true := by
  decide

/-- Claim C9 (amended): the existence check interprets `filename` as an
`rglob` pattern; for a non-empty filename without path separators it returns
true on a directory root exactly when a regular file whose name glob-matches
the pattern occurs somewhere in the subtree below the root (at any depth,
not only the top level), and it returns false, without raising, when the
root is missing/unreadable or is not a directory. -/
theorem exists_check_search_semantics (filename : String)
    (_hne : filename ≠ "") (_hsep : '/' ∉ filename.data) :
    file_exists_in_models none filename = false ∧
    (∀ n : String, file_exists_in_models (some (.file n)) filename = false) ∧
    (∀ (n : String) (children : List FSNode),
      (file_exists_in_models (some (.dir n children)) filename = true ↔
        ∃ c ∈ children, HasMatchingFile filename c)) :=
  ⟨rfl, fun _ => rfl, fun _ children => subtreeMatchList_iff filename children⟩

/-- Concrete witness for C9: the pattern "x?.bin" over a tree holding
"x1.bin". -/
theorem exists_check_search_semantics_witness :
    file_exists_in_models none "x?.bin" = false ∧
    (file_exists_in_models (some (.dir "models" [.file "x1.bin"])) "x?.bin" = true ↔
      ∃ c ∈ [FSNode.file "x1.bin"], HasMatchingFile "x?.bin" c) := by
  have h := exists_check_search_semantics "x?.bin" (by decide) (by decide)
  exact ⟨h.1, h.2.2 "models" [FSNode.file "x1.bin"]⟩

/-- Claim C10: every retained identifier lands in exactly one of the two
tallies, so the successful and failed counts sum to the number of non-blank
identifiers in the list. -/
theorem tally_partitions_identifiers (l : String) (env : String → ArtifactEnv) :
    (process_civitai_downloads l env).successful + (process_civitai_downloads l env).failed =
      (pySplitStrip l).length := by
  unfold process_civitai_downloads
  by_cases h : l = ""
  · subst h
    rfl
  · simp only [h, if_false, runTally_spec env (pySplitStrip l) 0 0]
    simpa using filter_length_split (fun i => (download_civitai_model i (env i)).ok)
      (pySplitStrip l)
